import Mathlib

/-!
Shallow embedding of the podcast-analyzer backend
(`backend/app/routers/analysis.py`, `backend/app/routers/digests.py`,
`backend/app/services/{digest,summarizer,feed_parser}.py`) together with
proofs settling the frozen claims about it.

External collaborators (the Anthropic LLM client, the Whisper transcriber,
the audio downloader, the Gemini image API and the random number generator)
are modelled as explicit parameters: an `Except String α` for a call that can
raise, a `String → Option String` oracle for image generation, and an index
into the artist palette for `random.choice`.  Machine strings are Lean
`String`s (byte-identical to the Python source literals); SQL `NULL` is
`Option`.  Unicode-only behaviours of CPython helpers (`int()` accepting
non-ASCII digits, `\w`/`\s` beyond ASCII) are modelled on the ASCII subset,
which is the alphabet every literal of this repository uses.
-/

/-! ## Data model (`backend/app/models.py`) -/

/-- Row of `episode_analyses`: all structured columns are nullable JSON/text. -/
structure EpisodeAnalysisRow where
  overview : Option String
  key_points : Option (List String)
  topics : Option (List String)
  themes : Option (List String)
  predictions : Option (List String)
  recommendations : Option (List String)
  advice : Option (List String)
  notable_quotes : Option (List String)
deriving Repr, DecidableEq

/-- Row of `episodes`; `analysis` mirrors the one-to-one `EpisodeAnalysis`
relationship.  `published_at` is an abstract timestamp (`none` = SQL NULL). -/
structure Episode where
  id : Nat
  podcast_id : Nat
  title : String
  published_at : Option Nat
  status : String
  processing_step : Option String
  transcript : Option String
  summary : Option String
  analysis : Option EpisodeAnalysisRow
deriving Repr, DecidableEq

/-- Row of `podcasts` (only the fields the digest pipeline reads). -/
structure Podcast where
  id : Nat
  title : String
deriving Repr, DecidableEq

/-! ## `FeedParser.parse_duration` (`services/feed_parser.py`) -/

/-- Python whitespace stripped by `int(str)` and split on by `str.split()`
(ASCII subset: space, tab, newline, carriage return, vertical tab, form feed). -/
def pyIsSpace (c : Char) : Bool :=
  c = ' ' || c = '\t' || c = '\n' || c = '\r' || c = '\x0b' || c = '\x0c'

/-- Tail of a CPython integer-literal digit group: digits, with single
underscores allowed only between digits. -/
def digitsUSTail : List Char → Bool
  | [] => true
  | c :: r =>
    if c = '_' then
      match r with
      | d :: r2 => d.isDigit && digitsUSTail r2
      | [] => false
    else c.isDigit && digitsUSTail r

/-- A full digit group accepted by `int(str)`: nonempty, starts with a digit. -/
def digitsOK : List Char → Bool
  | [] => false
  | c :: r => c.isDigit && digitsUSTail r

/-- Numeric value of a digit group (underscores skipped). -/
def digitsVal (l : List Char) : Nat :=
  (l.filter (fun c => c ≠ '_')).foldl (fun n c => 10 * n + (c.toNat - 48)) 0

/-- CPython `int(str)`: strips whitespace, accepts an optional sign and a
base-10 digit group with underscores; `none` models the `ValueError`. -/
def pyInt (s : String) : Option Int :=
  let l := ((s.data.dropWhile pyIsSpace).reverse.dropWhile pyIsSpace).reverse
  match l with
  | '+' :: r => if digitsOK r then some (digitsVal r) else none
  | '-' :: r => if digitsOK r then some (-(digitsVal r : Int)) else none
  | _ => if digitsOK l then some (digitsVal l) else none

/-- Python `str.split(sep)` for a single-character separator (keeps empty
segments; `"".split(":") = [""]`). -/
def splitOnChar (sep : Char) : List Char → List (List Char)
  | [] => [[]]
  | c :: r =>
    if c = sep then [] :: splitOnChar sep r
    else
      match splitOnChar sep r with
      | g :: gs => (c :: g) :: gs
      | [] => [[c]]

/-- `FeedParser.parse_duration`: integer seconds, else `HH:MM:SS` or `MM:SS`,
else `None`; the empty string is falsy and returns `None` at once. -/
def parse_duration (duration_str : String) : Option Int :=
  if duration_str = "" then none
  else
    match pyInt duration_str with
    | some n => some n
    | none =>
      match splitOnChar ':' duration_str.data with
      | [h, m, s] =>
        match pyInt (String.mk h), pyInt (String.mk m), pyInt (String.mk s) with
        | some hh, some mm, some ss => some (hh * 3600 + mm * 60 + ss)
        | _, _, _ => none
      | [m, s] =>
        match pyInt (String.mk m), pyInt (String.mk s) with
        | some mm, some ss => some (mm * 60 + ss)
        | _, _ => none
      | _ => none

/-- Classifier used to state C9: the string is a 2- or 3-part colon-separated
sequence of integer literals (the only colon shapes `parse_duration` accepts). -/
def colonFormOk (s : String) : Bool :=
  match splitOnChar ':' s.data with
  | [h, m, sec] =>
    (pyInt (String.mk h)).isSome && (pyInt (String.mk m)).isSome &&
      (pyInt (String.mk sec)).isSome
  | [m, sec] => (pyInt (String.mk m)).isSome && (pyInt (String.mk sec)).isSome
  | _ => false

/-! ## Episode pipeline (`routers/analysis.py`) -/

/-- `StructuredAnalysis` dataclass of `services/summarizer.py`. -/
structure StructuredAnalysis where
  overview : String
  key_points : List String
  topics : List String
  themes : List String
  predictions : List String
  recommendations : List String
  advice : List String
  notable_quotes : List String
  raw_summary : String
deriving Repr, DecidableEq

/-- The row written by the upsert at the end of `process_episode`. -/
def analysisRowOf (a : StructuredAnalysis) : EpisodeAnalysisRow :=
  { overview := some a.overview
    key_points := some a.key_points
    topics := some a.topics
    themes := some a.themes
    predictions := some a.predictions
    recommendations := some a.recommendations
    advice := some a.advice
    notable_quotes := some a.notable_quotes }

/-- `process_episode`: the sequence of episode states committed to the
database, in order.  The three external stages (audio download, Whisper
transcription, structured analysis) are passed as outcomes; `.error msg`
models the stage raising with message `msg`.  `none` for the episode models
the early return when the id is unknown (no commit). -/
def processEpisodeCommits (episode : Option Episode)
    (download : Except String String) (transcribe : Except String String)
    (analyze : Except String StructuredAnalysis) : List Episode :=
  match episode with
  | none => []
  | some e =>
    let s0 := { e with status := "processing", processing_step := some "starting" }
    let s1 := { s0 with processing_step := some "downloading" }
    match download with
    | .error msg =>
      [s0, s1,
        { s1 with status := "failed", processing_step := none,
                  summary := some ("Error: " ++ msg) }]
    | .ok _ =>
      let s2 := { s1 with processing_step := some "transcribing" }
      match transcribe with
      | .error msg =>
        [s0, s1, s2,
          { s2 with status := "failed", processing_step := none,
                    summary := some ("Error: " ++ msg) }]
      | .ok t =>
        let s3 := { s2 with transcript := some t }
        let s4 := { s3 with processing_step := some "analyzing" }
        match analyze with
        | .error msg =>
          [s0, s1, s2, s3, s4,
            { s4 with status := "failed", processing_step := none,
                      summary := some ("Error: " ++ msg) }]
        | .ok a =>
          [s0, s1, s2, s3, s4,
            { s4 with summary := some a.raw_summary,
                      analysis := some (analysisRowOf a),
                      status := "completed", processing_step := none }]

/-- Python truthiness of a nullable text column (`None` and `""` are falsy). -/
def optTruthy : Option String → Bool
  | none => false
  | some s => s ≠ ""

/-- `analyze_episode` endpoint: episode states committed (empty when the
endpoint returns early because analysis is in progress or already done). -/
def analyzeEpisodeCommits (e : Episode) : List Episode :=
  if e.status == "processing" then []
  else if e.status == "completed" && optTruthy e.summary then []
  else [{ e with status := "processing" }]

/-- The batch loop of `batch_analyze` (lines 230-235): every selected episode
still `pending` is flipped to `processing` in the single closing commit. -/
def batchMarkPending (episodes : List Episode) : List Episode :=
  episodes.map fun e =>
    if e.status == "pending" then { e with status := "processing" } else e

/-- `reset_stuck_episodes`: episodes in `processing` or `failed` go back to
`pending` with the step cleared. -/
def resetStuck (episodes : List Episode) : List Episode :=
  episodes.map fun e =>
    if e.status == "processing" || e.status == "failed" then
      { e with status := "pending", processing_step := none }
    else e

/-- The full spec invariant of C1: `processing_step` non-null iff
`status = "processing"`. -/
def stepMatchesStatus (e : Episode) : Bool :=
  e.processing_step.isSome == (e.status == "processing")

/-- The direction of the invariant the code does maintain: a non-null
`processing_step` only occurs with `status = "processing"`. -/
def stepOnlyIfProcessing (e : Episode) : Bool :=
  !e.processing_step.isSome || e.status == "processing"

/-- `batch_analyze`'s latest-per-podcast selection and period filtering
(lines 196-220).  `podcast_ids` follows Python truthiness: `None` or the
empty list apply no filter. -/
def episodesByPodcastFilter (db : List Episode) (podcast_ids : Option (List Nat)) :
    List Episode :=
  match podcast_ids with
  | some (i :: is) => db.filter fun e => (i :: is).contains e.podcast_id
  | _ => db

/-- The grouped subquery value `max(published_at)` for one podcast: SQL `MAX`
ignores NULLs and is NULL when every value is NULL. -/
def maxPublishedFor (db : List Episode) (pid : Nat) : Option Nat :=
  ((db.filter fun e => e.podcast_id == pid).filterMap (·.published_at)).max?

/-- The `TimePeriod.LATEST` join: keep episodes of the filtered set whose
`published_at` equals their podcast's grouped maximum; a NULL `published_at`
never satisfies the SQL equality. -/
def latestPerPodcast (db : List Episode) (podcast_ids : Option (List Nat)) :
    List Episode :=
  (episodesByPodcastFilter db podcast_ids).filter fun e =>
    match e.published_at with
    | none => false
    | some d => maxPublishedFor db e.podcast_id == some d

/-! ## Theorems: C9 and C7 -/

/-- C9 (confirmed): `parse_duration` maps "125" to 125, "02:05" to 125 and
"01:02:05" to 3725 seconds; any string that is neither an integer literal nor
a 2- or 3-part colon-separated sequence of integer literals yields `none`
(the function is total, so no input raises). -/
theorem c9_parse_duration (s : String) (h1 : pyInt s = none)
    (h2 : colonFormOk s = false) :
    parse_duration "125" = some 125 ∧ parse_duration "02:05" = some 125 ∧
      parse_duration "01:02:05" = some 3725 ∧ parse_duration s = none := by
  refine ⟨by decide, by decide, by decide, ?_⟩
  unfold parse_duration
  split
  · rfl
  · rw [h1]
    unfold colonFormOk at h2
    cases hsp : splitOnChar ':' s.data with
    | nil => simp
    | cons p ps =>
      cases ps with
      | nil => simp
      | cons q qs =>
        cases qs with
        | nil =>
          rw [hsp] at h2
          cases hp : pyInt (String.mk p) <;> cases hq : pyInt (String.mk q) <;>
            simp_all
        | cons r rs =>
          cases rs with
          | nil =>
            rw [hsp] at h2
            cases hp : pyInt (String.mk p) <;> cases hq : pyInt (String.mk q) <;>
              cases hr : pyInt (String.mk r) <;> simp_all
          | cons t ts => simp

theorem c9_parse_duration_witness :
    pyInt "3 apples" = none ∧ colonFormOk "3 apples" = false ∧
      (parse_duration "125" = some 125 ∧ parse_duration "02:05" = some 125 ∧
        parse_duration "01:02:05" = some 3725 ∧
        parse_duration "3 apples" = none) :=
  ⟨by decide, by decide, c9_parse_duration "3 apples" (by decide) (by decide)⟩

/-- C7 (confirmed): when the analysis stage raises after transcription
succeeded, the transcript committed at the end of the transcription stage
(the fourth commit) survives, and the final committed state is `failed` with
the step cleared, the error message in `summary`, and the transcript intact. -/
theorem c7_partial_progress (e : Episode) (path t msg : String) :
    (processEpisodeCommits (some e) (.ok path) (.ok t) (.error msg)).get? 3 =
      some { e with status := "processing", processing_step := some "transcribing",
                    transcript := some t } ∧
    (processEpisodeCommits (some e) (.ok path) (.ok t) (.error msg)).getLast? =
      some { e with status := "failed", processing_step := none,
                    transcript := some t, summary := some ("Error: " ++ msg) } := by
  exact ⟨rfl, rfl⟩

/-! ## Theorems: C1 -/

/-- A freshly ingested episode as `models.py` defaults create it. -/
def pendingEpisode : Episode :=
  { id := 1, podcast_id := 1, title := "Ep 1", published_at := some 10,
    status := "pending", processing_step := none, transcript := none,
    summary := none, analysis := none }

/-- C1 counterexample: the `analyze_episode` endpoint commits
`status = "processing"` without setting `processing_step` (lines 147-148), so
the committed state violates the claimed iff-invariant. -/
theorem c1_counterexample :
    analyzeEpisodeCommits pendingEpisode =
      [{ pendingEpisode with status := "processing" }] ∧
    (analyzeEpisodeCommits pendingEpisode).all stepMatchesStatus = false := by
  exact ⟨rfl, by decide⟩

/-- C1 (corrected): only one direction of the invariant holds across commits.
Every state committed by `process_episode` satisfies
`processing_step` non-null → `status = "processing"` (its terminal commits
clear the step), and `analyze_episode`, the batch loop and the stuck-reset
preserve that one-way invariant — but the endpoints that set
`status = "processing"` do so without writing a step. -/
theorem c1_step_invariant (episode : Option Episode)
    (d t : Except String String) (a : Except String StructuredAnalysis)
    (e : Episode) (db : List Episode) :
    (processEpisodeCommits episode d t a).all stepOnlyIfProcessing = true ∧
    (analyzeEpisodeCommits e).all stepOnlyIfProcessing = true ∧
    (db.all stepOnlyIfProcessing = true →
      (batchMarkPending db).all stepOnlyIfProcessing = true) ∧
    (db.all stepOnlyIfProcessing = true →
      (resetStuck db).all stepOnlyIfProcessing = true) := by
  refine ⟨?_, ?_, ?_, ?_⟩
  · cases episode with
    | none => rfl
    | some e' => cases d <;> cases t <;> cases a <;> rfl
  · unfold analyzeEpisodeCommits
    split
    · rfl
    · split
      · rfl
      · simp [stepOnlyIfProcessing]
  · intro h
    rw [List.all_eq_true] at h ⊢
    intro x hx
    rw [batchMarkPending, List.mem_map] at hx
    obtain ⟨y, hy, rfl⟩ := hx
    by_cases hp : y.status == "pending"
    · simp [hp, stepOnlyIfProcessing]
    · simpa [hp] using h y hy
  · intro h
    rw [List.all_eq_true] at h ⊢
    intro x hx
    rw [resetStuck, List.mem_map] at hx
    obtain ⟨y, hy, rfl⟩ := hx
    by_cases hp : (y.status == "processing" || y.status == "failed")
    · simp [hp, stepOnlyIfProcessing]
    · simpa [hp] using h y hy

theorem c1_step_invariant_witness :
    [pendingEpisode].all stepOnlyIfProcessing = true ∧
    (batchMarkPending [pendingEpisode]).all stepOnlyIfProcessing = true ∧
    (resetStuck [pendingEpisode]).all stepOnlyIfProcessing = true := by
  refine ⟨by decide, ?_, ?_⟩
  · exact (c1_step_invariant none (.ok "") (.ok "")
      (.ok ⟨"", [], [], [], [], [], [], [], ""⟩) pendingEpisode
      [pendingEpisode]).2.2.1 (by decide)
  · exact (c1_step_invariant none (.ok "") (.ok "")
      (.ok ⟨"", [], [], [], [], [], [], [], ""⟩) pendingEpisode
      [pendingEpisode]).2.2.2 (by decide)

/-! ## Theorems: C5 -/

/-- Helper: composing two filters equals one filter of a pointwise-equal
conjunction. -/
theorem filter_filter_congr {α : Type} (p q r : α → Bool) (l : List α)
    (h : ∀ a, (q a && p a) = r a) :
    (l.filter q).filter p = l.filter r := by
  induction l with
  | nil => rfl
  | cons x xs ih =>
    have hx := h x
    by_cases hq : q x = true <;> by_cases hp : p x = true <;>
      simp [List.filter_cons, hq, hp, ← hx, ih]

/-- Two distinct episodes of the same podcast sharing the maximal
`published_at`. -/
def tieEpisodeA : Episode :=
  { id := 1, podcast_id := 1, title := "A", published_at := some 5,
    status := "pending", processing_step := none, transcript := none,
    summary := none, analysis := none }

def tieEpisodeB : Episode := { tieEpisodeA with id := 2 }

/-- C5 counterexample: with a tie on the maximal `published_at`, the
max-join returns both episodes of the podcast, so the selection is not
"exactly one episode per distinct podcast". -/
theorem c5_counterexample :
    latestPerPodcast [tieEpisodeA, tieEpisodeB] none = [tieEpisodeA, tieEpisodeB] ∧
    tieEpisodeA.podcast_id = tieEpisodeB.podcast_id ∧ tieEpisodeA ≠ tieEpisodeB := by
  exact ⟨by decide, rfl, by decide⟩

/-- C5 (corrected): for each podcast id, the latest-per-podcast selection
returns exactly the episodes of the filtered set whose non-null
`published_at` equals that podcast's maximum over the whole table — one per
podcast only when the maximum is uniquely attained (ties select several,
all-NULL podcasts select none), and never merely the single latest episode
across all podcasts. -/
theorem c5_argmax_per_podcast (db : List Episode)
    (podcast_ids : Option (List Nat)) (pid : Nat) :
    (latestPerPodcast db podcast_ids).filter (fun e => e.podcast_id == pid) =
      (episodesByPodcastFilter db podcast_ids).filter
        (fun e => e.podcast_id == pid &&
          (e.published_at == maxPublishedFor db pid && e.published_at.isSome)) ∧
    (((episodesByPodcastFilter db podcast_ids).filter
        (fun e => e.podcast_id == pid &&
          (e.published_at == maxPublishedFor db pid &&
            e.published_at.isSome))).length = 1 →
      ((latestPerPodcast db podcast_ids).filter
        (fun e => e.podcast_id == pid)).length = 1) := by
  have key : (latestPerPodcast db podcast_ids).filter (fun e => e.podcast_id == pid) =
      (episodesByPodcastFilter db podcast_ids).filter
        (fun e => e.podcast_id == pid &&
          (e.published_at == maxPublishedFor db pid && e.published_at.isSome)) := by
    unfold latestPerPodcast
    apply filter_filter_congr
    intro e
    by_cases hpid : e.podcast_id == pid
    · have hpe : e.podcast_id = pid := by simpa using hpid
      cases hpub : e.published_at with
      | none => simp [hpid]
      | some dd =>
        rw [hpe]
        by_cases hm : maxPublishedFor db pid == some dd
        · have := beq_iff_eq.mp hm
          simp [hpid, hm, this]
        · have hne : maxPublishedFor db pid ≠ some dd := by
            intro hc
            exact hm (beq_iff_eq.mpr hc)
          have hne2 : (some dd == maxPublishedFor db pid) = false := by
            rw [beq_eq_false_iff_ne]
            exact fun hc => hne hc.symm
          simp [hpid, hm, hne2]
    · simp [hpid]
  exact ⟨key, fun h => by rw [key]; exact h⟩

theorem c5_argmax_per_podcast_witness :
    ((episodesByPodcastFilter [tieEpisodeA] none).filter
        (fun e => e.podcast_id == 1 &&
          (e.published_at == maxPublishedFor [tieEpisodeA] 1 &&
            e.published_at.isSome))).length = 1 ∧
    ((latestPerPodcast [tieEpisodeA] none).filter
        (fun e => e.podcast_id == 1)).length = 1 :=
  ⟨by decide, (c5_argmax_per_podcast [tieEpisodeA] none 1).2 (by decide)⟩

/-! ## Transcript chunking (`services/summarizer.py`, lines 99-122) -/

/-- `SummarizerService.CHUNK_SIZE`. -/
def CHUNK_SIZE : Nat := 80000

/-- Python `str.split()` with no argument: split on runs of whitespace,
dropping empty segments; `acc` holds the current word reversed. -/
def pySplitAux : List Char → List Char → List String
  | [], acc => if acc.isEmpty then [] else [String.mk acc.reverse]
  | c :: r, acc =>
    if pyIsSpace c then
      if acc.isEmpty then pySplitAux r []
      else String.mk acc.reverse :: pySplitAux r []
    else pySplitAux r (c :: acc)

def pySplit (s : String) : List String := pySplitAux s.data []

/-- Python `" ".join(ws)`. -/
def joinSpace : List String → String
  | [] => ""
  | w :: ws =>
    match ws with
    | [] => w
    | _ :: _ => w ++ " " ++ joinSpace ws

/-- The word loop of `_chunk_transcript` (lines 104-121), producing the
chunks as word lists; the Python chunks are their space-joins.  The
`current_length` accumulator adds `len(word) + 1` per word exactly as the
source does. -/
def chunkLoop : List String → List String → Nat → List (List String)
  | [], current_chunk, _ =>
    if current_chunk.isEmpty then [] else [current_chunk]
  | w :: ws, current_chunk, current_length =>
    if current_length + (w.length + 1) > CHUNK_SIZE then
      current_chunk :: chunkLoop ws [w] (w.length + 1)
    else
      chunkLoop ws (current_chunk ++ [w]) (current_length + (w.length + 1))

/-- `SummarizerService._chunk_transcript`. -/
def _chunk_transcript (transcript : String) : List String :=
  if transcript.length ≤ CHUNK_SIZE then [transcript]
  else (chunkLoop (pySplit transcript) [] 0).map joinSpace

/-- `sum(len(w) + 1 for w in ws)` — the quantity `current_length` tracks. -/
def sumLen : List String → Nat
  | [] => 0
  | w :: ws => w.length + 1 + sumLen ws

theorem sumLen_append (a b : List String) :
    sumLen (a ++ b) = sumLen a + sumLen b := by
  induction a with
  | nil => simp [sumLen]
  | cons x xs ih =>
    simp [sumLen, ih]
    omega

/-- The chunk word-lists flatten back to the exact word sequence: no word is
dropped, duplicated, reordered or split. -/
theorem chunkLoop_join (ws : List String) :
    ∀ cur n, (chunkLoop ws cur n).flatten = cur ++ ws := by
  induction ws with
  | nil =>
    intro cur n
    by_cases h : cur.isEmpty
    · have : cur = [] := by simpa using h
      simp [chunkLoop, h, this]
    · simp [chunkLoop, h]
  | cons w ws ih =>
    intro cur n
    by_cases h : n + (w.length + 1) > CHUNK_SIZE
    · simp [chunkLoop, h, ih]
    · simp [chunkLoop, h, ih]

/-- Size invariant of the loop: provided every remaining word is at most
`CHUNK_SIZE` long, every emitted word-list has `sumLen` at most
`CHUNK_SIZE + 1`. -/
theorem chunkLoop_sumLen_bound (ws : List String) :
    ∀ cur n, n = sumLen cur → sumLen cur ≤ CHUNK_SIZE + 1 →
      (∀ w ∈ ws, w.length ≤ CHUNK_SIZE) →
      ∀ c ∈ chunkLoop ws cur n, sumLen c ≤ CHUNK_SIZE + 1 := by
  induction ws with
  | nil =>
    intro cur n _ hcur _ c hc
    by_cases h : cur.isEmpty
    · simp [chunkLoop, h] at hc
    · simp [chunkLoop, h] at hc
      rw [hc]
      exact hcur
  | cons w ws ih =>
    intro cur n hn hcur hws c hc
    by_cases h : n + (w.length + 1) > CHUNK_SIZE
    · simp only [chunkLoop, h, if_true, List.mem_cons] at hc
      rcases hc with rfl | hc
      · exact hcur
      · refine ih [w] (w.length + 1) (by simp [sumLen]) ?_
          (fun x hx => hws x (List.mem_cons_of_mem _ hx)) c hc
        have hw := hws w (List.mem_cons_self _ _)
        simp [sumLen]
        omega
    · refine ih (cur ++ [w]) (n + (w.length + 1)) ?_ ?_
        (fun x hx => hws x (List.mem_cons_of_mem _ hx)) c ?_
      · rw [sumLen_append, hn]
        simp [sumLen]
      · rw [sumLen_append, ← hn]
        simp [sumLen]
        omega
      · simpa [chunkLoop, h] using hc

theorem joinSpace_length (ws : List String) (h : ws ≠ []) :
    (joinSpace ws).length + 1 = sumLen ws := by
  induction ws with
  | nil => exact absurd rfl h
  | cons w ws ih =>
    cases ws with
    | nil => simp [joinSpace, sumLen]
    | cons v vs =>
      have hrec := ih (by simp)
      have hj : joinSpace (w :: v :: vs) = w ++ " " ++ joinSpace (v :: vs) := rfl
      have hsp : (" " : String).length = 1 := rfl
      rw [hj, String.length_append, String.length_append, hsp,
        show sumLen (w :: v :: vs) = w.length + 1 + sumLen (v :: vs) from rfl]
      omega

theorem chunk_length_le (c : List String) (h : sumLen c ≤ CHUNK_SIZE + 1) :
    (joinSpace c).length ≤ CHUNK_SIZE := by
  cases c with
  | nil => simp [joinSpace]
  | cons w ws =>
    have := joinSpace_length (w :: ws) (by simp)
    omega

/-- C4 (corrected): a transcript at or below the threshold is the single
chunk itself; chunking never splits a word (the chunk word-lists flatten to
the exact split word sequence); and every chunk fits in `CHUNK_SIZE`
*provided no single whitespace-delimited word exceeds `CHUNK_SIZE`* — the
proviso the original claim lacks. -/
theorem c4_chunking (t : String) :
    (t.length ≤ CHUNK_SIZE → _chunk_transcript t = [t]) ∧
    (chunkLoop (pySplit t) [] 0).flatten = pySplit t ∧
    ((∀ w ∈ pySplit t, w.length ≤ CHUNK_SIZE) →
      ∀ c ∈ _chunk_transcript t, c.length ≤ CHUNK_SIZE) := by
  refine ⟨fun h => by simp [_chunk_transcript, h], chunkLoop_join _ _ _, ?_⟩
  intro hw c hc
  unfold _chunk_transcript at hc
  by_cases hlen : t.length ≤ CHUNK_SIZE
  · rw [if_pos hlen] at hc
    simp at hc
    rw [hc]
    exact hlen
  · rw [if_neg hlen] at hc
    rw [List.mem_map] at hc
    obtain ⟨cl, hcl, rfl⟩ := hc
    exact chunk_length_le cl
      (chunkLoop_sumLen_bound (pySplit t) [] 0 rfl (by simp [sumLen]) hw cl hcl)

theorem c4_chunking_witness :
    "alpha beta".length ≤ CHUNK_SIZE ∧
    _chunk_transcript "alpha beta" = ["alpha beta"] ∧
    (∀ w ∈ pySplit "alpha beta", w.length ≤ CHUNK_SIZE) ∧
    (∀ c ∈ _chunk_transcript "alpha beta", c.length ≤ CHUNK_SIZE) :=
  ⟨by decide, (c4_chunking "alpha beta").1 (by decide), by decide,
    (c4_chunking "alpha beta").2.2 (by decide)⟩

/-- A single word one character longer than the chunk threshold. -/
def longWord : String := String.mk (List.replicate 80001 'a')

theorem pySplitAux_no_space (l : List Char) :
    ∀ acc, (∀ c ∈ l, pyIsSpace c = false) →
      pySplitAux l acc =
        if acc.isEmpty && l.isEmpty then [] else [String.mk (acc.reverse ++ l)] := by
  induction l with
  | nil =>
    intro acc _
    by_cases ha : acc.isEmpty <;> simp [pySplitAux, ha]
  | cons c r ih =>
    intro acc h
    have hc : pyIsSpace c = false := h c (List.mem_cons_self _ _)
    rw [pySplitAux, if_neg (by simp [hc]),
      ih (c :: acc) (fun x hx => h x (List.mem_cons_of_mem _ hx))]
    simp

/-- C4 counterexample: a transcript that is one 80001-character word exceeds
the threshold, and chunking emits a leading empty chunk followed by the
whole word as a single chunk of length 80001 > `CHUNK_SIZE` — refuting
"every produced chunk has length not exceeding the threshold". -/
theorem c4_counterexample :
    CHUNK_SIZE < longWord.length ∧ _chunk_transcript longWord = ["", longWord] := by
  have hlen : longWord.length = 80001 := by
    rw [show longWord.length = (List.replicate 80001 'a').length from rfl,
      List.length_replicate]
  have hne : List.replicate 80001 'a' ≠ ([] : List Char) := by
    rw [Ne, List.replicate_eq_nil_iff]
    decide
  have hrep : (List.replicate 80001 'a').isEmpty = false := by
    cases hl : List.replicate 80001 'a' with
    | nil => exact absurd hl hne
    | cons x xs => rfl
  have hsplit : pySplit longWord = [longWord] := by
    show pySplitAux (List.replicate 80001 'a') [] = [longWord]
    rw [pySplitAux_no_space _ []
      (fun c hc => by rw [List.eq_of_mem_replicate hc]; rfl)]
    rw [show (List.isEmpty ([] : List Char) &&
      (List.replicate 80001 'a').isEmpty) = false from by rw [hrep, Bool.and_false]]
    rfl
  have hchunk : chunkLoop [longWord] [] 0 = [[], [longWord]] := by
    rw [chunkLoop, if_pos (by rw [hlen]; decide), chunkLoop]
    rfl
  refine ⟨by rw [hlen]; decide, ?_⟩
  unfold _chunk_transcript
  rw [if_neg (by rw [hlen]; decide), hsplit, hchunk]
  rfl

/-! ## JSON values and `json.loads` (the CPython `json` module, modelled) -/

/-- Named character constants used by the JSON and regex models below. -/
def quoteChar : Char := Char.ofNat 34

def backslashChar : Char := Char.ofNat 92

def lbraceChar : Char := Char.ofNat 123

def rbraceChar : Char := Char.ofNat 125

def backtickChar : Char := Char.ofNat 96

/-- A parsed JSON value.  Numbers keep their source token (no claim consumes
a numeric value); objects keep every key occurrence in order, lookup taking
the last as a Python dict built by `json.loads` does. -/
inductive JVal where
  | jnull
  | jbool (b : Bool)
  | jnum (raw : String)
  | jstr (s : String)
  | jarr (xs : List JVal)
  | jobj (kvs : List (String × JVal))

/-- JSON whitespace accepted between tokens by `json.loads`. -/
def jsonWs (c : Char) : Bool := c = ' ' || c = '\t' || c = '\n' || c = '\r'

def hexVal (c : Char) : Option Nat :=
  if c.isDigit then some (c.toNat - 48)
  else if 'a' ≤ c ∧ c ≤ 'f' then some (c.toNat - 87)
  else if 'A' ≤ c ∧ c ≤ 'F' then some (c.toNat - 55)
  else none

/-- Body of a JSON string after the opening quote: decoded text plus the
remainder.  Escapes per RFC 8259; a `\uXXXX` escape becomes the bare code
point (surrogate pairs are not recombined — irrelevant to every claim). -/
def parseJStr (fuel : Nat) (acc : List Char) (l : List Char) :
    Option (String × List Char) :=
  match fuel, l with
  | 0, _ => none
  | _, [] => none
  | f + 1, c :: r =>
    if c = quoteChar then some (String.mk acc.reverse, r)
    else if c = backslashChar then
      match r with
      | [] => none
      | e :: r2 =>
        if e = quoteChar then parseJStr f (quoteChar :: acc) r2
        else if e = backslashChar then parseJStr f (backslashChar :: acc) r2
        else if e = '/' then parseJStr f ('/' :: acc) r2
        else if e = 'b' then parseJStr f ('\x08' :: acc) r2
        else if e = 'f' then parseJStr f ('\x0c' :: acc) r2
        else if e = 'n' then parseJStr f ('\n' :: acc) r2
        else if e = 'r' then parseJStr f ('\r' :: acc) r2
        else if e = 't' then parseJStr f ('\t' :: acc) r2
        else if e = 'u' then
          match r2 with
          | h1 :: h2 :: h3 :: h4 :: r3 =>
            match hexVal h1, hexVal h2, hexVal h3, hexVal h4 with
            | some a, some b, some c2, some d =>
              parseJStr f (Char.ofNat (((a * 16 + b) * 16 + c2) * 16 + d) :: acc) r3
            | _, _, _, _ => none
          | _ => none
        else none
    else if c.toNat < 32 then none
    else parseJStr f (c :: acc) r

/-- Longest valid JSON number token at the head, with the remainder. -/
def parseJNum (l : List Char) : Option (String × List Char) :=
  let signRes : List Char × List Char :=
    match l with
    | '-' :: r => (['-'], r)
    | _ => ([], l)
  let neg := signRes.1
  let l1 := signRes.2
  match l1.takeWhile Char.isDigit with
  | [] => none
  | ds =>
    if ds.length > 1 && ds.headD '0' = '0' then none
    else
      let l2 := l1.dropWhile Char.isDigit
      let fracRes : Option (List Char × List Char) :=
        match l2 with
        | '.' :: r =>
          match r.takeWhile Char.isDigit with
          | [] => none
          | fs => some ('.' :: fs, r.dropWhile Char.isDigit)
        | _ => some ([], l2)
      match fracRes with
      | none => none
      | some (frac, l3) =>
        let expRes : Option (List Char × List Char) :=
          match l3 with
          | e :: r =>
            if e = 'e' || e = 'E' then
              let sgn : List Char × List Char :=
                match r with
                | '+' :: rr => (['+'], rr)
                | '-' :: rr => (['-'], rr)
                | _ => ([], r)
              match sgn.2.takeWhile Char.isDigit with
              | [] => none
              | es => some (e :: (sgn.1 ++ es), sgn.2.dropWhile Char.isDigit)
            else some ([], l3)
          | [] => some ([], l3)
        match expRes with
        | none => none
        | some (ex, l4) => some (String.mk (neg ++ ds ++ frac ++ ex), l4)

def litPrefix (lit : List Char) (l : List Char) : Option (List Char) :=
  if lit.isPrefixOf l then some (l.drop lit.length) else none

mutual

/-- One JSON value after optional leading whitespace (fuel-indexed
recursive-descent; the fuel in `jsonLoads` is ample for any input). -/
def parseJValue : Nat → List Char → Option (JVal × List Char)
  | 0, _ => none
  | f + 1, input =>
    match input.dropWhile jsonWs with
    | [] => none
    | c :: r =>
      if c = quoteChar then
        match parseJStr (r.length + 1) [] r with
        | some (s, rest) => some (.jstr s, rest)
        | none => none
      else if c = lbraceChar then
        match r.dropWhile jsonWs with
        | d :: r2 =>
          if d = rbraceChar then some (.jobj [], r2)
          else parseJObjItems f [] (d :: r2)
        | [] => none
      else if c = '[' then
        match r.dropWhile jsonWs with
        | d :: r2 =>
          if d = ']' then some (.jarr [], r2)
          else parseJArrItems f [] (d :: r2)
        | [] => none
      else
        match litPrefix "null".data (c :: r) with
        | some rest => some (.jnull, rest)
        | none =>
          match litPrefix "true".data (c :: r) with
          | some rest => some (.jbool true, rest)
          | none =>
            match litPrefix "false".data (c :: r) with
            | some rest => some (.jbool false, rest)
            | none =>
              match litPrefix "NaN".data (c :: r) with
              | some rest => some (.jnum "NaN", rest)
              | none =>
                match litPrefix "Infinity".data (c :: r) with
                | some rest => some (.jnum "Infinity", rest)
                | none =>
                  match litPrefix "-Infinity".data (c :: r) with
                  | some rest => some (.jnum "-Infinity", rest)
                  | none =>
                    match parseJNum (c :: r) with
                    | some (tok, rest) => some (.jnum tok, rest)
                    | none => none

/-- Items of a JSON array, starting at the first value. -/
def parseJArrItems : Nat → List JVal → List Char → Option (JVal × List Char)
  | 0, _, _ => none
  | f + 1, acc, l =>
    match parseJValue f l with
    | none => none
    | some (v, rest) =>
      match rest.dropWhile jsonWs with
      | ',' :: r2 => parseJArrItems f (v :: acc) r2
      | d :: r2 => if d = ']' then some (.jarr (v :: acc).reverse, r2) else none
      | [] => none

/-- Members of a JSON object, starting at the first key. -/
def parseJObjItems : Nat → List (String × JVal) → List Char →
    Option (JVal × List Char)
  | 0, _, _ => none
  | f + 1, acc, l =>
    match l.dropWhile jsonWs with
    | c :: r =>
      if c = quoteChar then
        match parseJStr (r.length + 1) [] r with
        | some (k, rest) =>
          match rest.dropWhile jsonWs with
          | ':' :: r2 =>
            match parseJValue f r2 with
            | some (v, rest2) =>
              match rest2.dropWhile jsonWs with
              | ',' :: r3 => parseJObjItems f ((k, v) :: acc) r3
              | d :: r3 =>
                if d = rbraceChar then some (.jobj ((k, v) :: acc).reverse, r3)
                else none
              | [] => none
            | none => none
          | _ => none
        | none => none
      else none
    | [] => none

end

/-- `json.loads`: exactly one JSON value, optionally surrounded by
whitespace. -/
def jsonLoads (s : String) : Option JVal :=
  match parseJValue (2 * s.data.length + 16) s.data with
  | some (v, rest) =>
    if (rest.dropWhile jsonWs).isEmpty then some v else none
  | none => none

/-- Close of the non-greedy fenced group: the first closing brace followed
by optional whitespace and three backticks; `acc` holds the group so far,
reversed. -/
def findFenceClose (acc : List Char) : List Char → Option String
  | [] => none
  | c :: r =>
    if c = rbraceChar &&
        [backtickChar, backtickChar, backtickChar].isPrefixOf (r.dropWhile pyIsSpace) then
      some (String.mk (c :: acc).reverse)
    else findFenceClose (c :: acc) r

/-- Try the fenced-block regex of `_parse_json_response` at this position:
three backticks, an optional `json` tag, whitespace, then a non-greedy
brace-to-brace group closed by whitespace and three backticks. -/
def tryFenceAt (l : List Char) : Option String :=
  if [backtickChar, backtickChar, backtickChar].isPrefixOf l then
    let r1 := l.drop 3
    let r2 := if ("json".data).isPrefixOf r1 then r1.drop 4 else r1
    match r2.dropWhile pyIsSpace with
    | c :: r3 => if c = lbraceChar then findFenceClose [c] r3 else none
    | [] => none
  else none

def scanFence : List Char → Option String
  | [] => none
  | c :: r =>
    match tryFenceAt (c :: r) with
    | some s => some s
    | none => scanFence r

/-- `re.search` of the fenced-block pattern: leftmost match wins. -/
def extractFenced (s : String) : Option String := scanFence s.data

/-- `re.search` of the greedy DOTALL brace-span pattern: from the first
opening brace to the last closing brace after it. -/
def extractBraces (s : String) : Option String :=
  match s.data.dropWhile (fun c => c ≠ lbraceChar) with
  | [] => none
  | sub =>
    match sub.reverse.dropWhile (fun c => c ≠ rbraceChar) with
    | [] => none
    | rev => some (String.mk rev.reverse)

/-- `DigestService._parse_json_response` (`services/digest.py` lines
88-109): direct parse, then fenced-block extraction, then brace-span
extraction, and on total failure the empty dict. -/
def parse_json_response (response : String) : JVal :=
  match jsonLoads response with
  | some v => v
  | none =>
    match (extractFenced response).bind jsonLoads with
    | some v => v
    | none =>
      match (extractBraces response).bind jsonLoads with
      | some v => v
      | none => .jobj []

/-- Python `dict.get(key)` on an object built by `json.loads`: the last
occurrence of a duplicated key wins. -/
def jGet (kvs : List (String × JVal)) (k : String) : Option JVal :=
  ((kvs.filter (fun p => p.1 == k)).getLast?).map (·.2)

/-- Python `dict.get(key, default)` (a present key with a null value still
wins over the default). -/
def jGetD (kvs : List (String × JVal)) (k : String) (d : JVal) : JVal :=
  (jGet kvs k).getD d

/-- Truthiness of a JSON number token: falsy iff its mantissa digits are all
zero (the exponent cannot make a zero mantissa non-zero). -/
def jnumTruthy (raw : String) : Bool :=
  raw = "NaN" || raw = "Infinity" || raw = "-Infinity" ||
    (raw.data.takeWhile (fun c => c ≠ 'e' && c ≠ 'E')).any
      (fun c => c.isDigit && c ≠ '0')

/-- Python truthiness of a parsed JSON value. -/
def jTruthy : JVal → Bool
  | .jnull => false
  | .jbool b => b
  | .jnum raw => jnumTruthy raw
  | .jstr s => s ≠ ""
  | .jarr xs => !xs.isEmpty
  | .jobj kvs => !kvs.isEmpty

/-- Truthiness of `dict.get(key)`: an absent key gives `None`, which is
falsy. -/
def optJTruthy : Option JVal → Bool
  | some v => jTruthy v
  | none => false

/-- `str()` of a parsed JSON value as an f-string interpolates it.  The
digest prompt only ever interpolates the model's `image_description`;
container renderings are opaque placeholders, inspected by no claim. -/
def pyStr : JVal → String
  | .jnull => "None"
  | .jbool true => "True"
  | .jbool false => "False"
  | .jnum raw => raw
  | .jstr s => s
  | .jarr _ => "<list>"
  | .jobj _ => "<dict>"

/-- `type(v).__name__` for the `AttributeError` message of `.get` on a
non-dict parse result. -/
def pyTypeName : JVal → String
  | .jnull => "NoneType"
  | .jbool _ => "bool"
  | .jstr _ => "str"
  | .jarr _ => "list"
  | .jobj _ => "dict"
  | .jnum raw =>
    if raw.data.any (fun c => c = '.' || c = 'e' || c = 'E') || raw = "NaN" ||
        raw = "Infinity" || raw = "-Infinity" then "float"
    else "int"

/-! ## Digest synthesis (`services/digest.py`) -/

/-- The artist palette of `services/digest.py` (name, style descriptor). -/
def ARTISTS_digest : List (String × String) := [
  ("Wassily Kandinsky", "Bold geometric shapes, vibrant primary colours, hard-edged circles and diagonal lines, musical rhythm translated to pure abstract form, no representational imagery"),
  ("Vincent van Gogh", "Thick swirling impasto brushstrokes, electric yellows and cobalt blues, the scene pulsing with emotional intensity, turbulent sky, heavy visible texture in every mark"),
  ("Salvador Dali", "Hyper-realistic surrealist dreamscape, melting impossible objects, vast arid desert extending to infinity, photographic detail applied to absurd scenarios, deep chiaroscuro shadow"),
  ("Katsushika Hokusai", "Japanese ukiyo-e woodblock print, bold flat black outlines, stylised ocean waves, graphic pattern fills, indigo and cream colour blocks, negative space as deliberate design element"),
  ("Gustav Klimt", "Art Nouveau gold leaf, ornamental spiral patterns covering every surface, jewel-like mosaic tiles, Byzantine richness, figures dissolving into decorative abstraction, copper and burnished gold dominant"),
  ("Jackson Pollock", "Abstract expressionist action painting, dense layered drips and splashes of industrial enamel, chaotic web of poured lines, raw canvas visible beneath, violent kinetic energy frozen in paint"),
  ("Egon Schiele", "Viennese expressionism, raw angular contour lines, elongated distorted forms, sickly ochre and burnt sienna palette, scratchy gestural marks, claustrophobic psychological rawness"),
  ("J.M.W. Turner", "Romantic sublime, atmosphere dissolving all solid forms into luminous vapour, golden apocalyptic light consuming the horizon, loose watercolour washes, barely legible forms emerging from radiant mist"),
  ("Roy Lichtenstein", "Bold black comic-strip outlines, Ben-Day dot pattern fills, flat primary colours, dramatic close-up cropping, graphic mechanical reproduction aesthetic, ironic pop art sensibility"),
  ("Edvard Munch", "Nordic expressionism, anxiety encoded in writhing undulating landscape lines, sickly green and blood-red sky, hollow-eyed figures, the horizon itself trembling with existential dread"),
  ("Georges Seurat", "Pointillist technique, entire image built from thousands of tiny pure-colour dots, shimmering optical colour mixing, scientific colour theory applied methodically, rigid formal composition"),
  ("Hieronymus Bosch", "Flemish Renaissance grotesque, teeming with impossible hybrid creatures, fantastical architectural structures, dense narrative detail in every corner, jewel-toned accents on earthy ground, medieval symbolism"),
  ("Frida Kahlo", "Mexican folk art fused with surrealism, flat decorative style, dense tropical foliage, bold botanical colour, symbolic objects charged with intense personal meaning, naive directness"),
  ("Mark Rothko", "Colour field abstraction, two or three luminous soft-edged rectangles of pure colour floating on canvas, emotional resonance through scale and hue relationship alone, meditative silence"),
  ("Edward Hopper", "American realism, stark raking light cutting across architecture, profound urban loneliness, diner windows glowing at night, long afternoon shadows, psychological stillness"),
  ("Utagawa Hiroshige", "Japanese woodblock landscape, flat colour planes divided by bold outlines, snow falling in diagonal lines, travellers tiny against monumental nature, deep indigo and terracotta palette"),
  ("Paul Gauguin", "Post-impressionist palette, flat bold outlines, non-naturalistic saturated colour fills, figures simplified to monumental shapes, decorative pattern, tropical flora as charged backdrop"),
  ("Umberto Boccioni", "Italian Futurism, dynamic force lines radiating outward, multiple simultaneous states of motion layered, fractured planes of colour, industrial energy and speed made visible"),
  ("Alphonse Mucha", "Czech Art Nouveau, flowing curvilinear botanical borders, pearl and rose palette, mosaic-like halos, ornate floral frame surrounding the central image, decorative flat linework"),
  ("Kazimir Malevich", "Russian Suprematism, pure geometric forms floating on white ground, black and red squares and rectangles, absolute reduction to essential form, zero reference to the natural world")]

/-- `DigestResult` dataclass.  JSON-typed fields keep the parsed value:
`result.get(...)` can hand back any JSON type unchanged. -/
structure DigestResult where
  summary : JVal
  common_themes : JVal
  trends : JVal
  predictions : JVal
  recommendations : JVal
  key_advice : JVal
  action_items : JVal
  image_url : Option String := none
  image_prompt : Option String := none

/-- The per-episode projection assembled in `process_digest` (lines 87-99). -/
structure EpisodeProjection where
  title : String
  podcast_title : String
  published_at : Option Nat
  overview : Option String
  key_points : List String
  themes : List String
  predictions : List String
  recommendations : List String
  advice : List String
deriving Repr, DecidableEq

/-- Projection for one episode (called on episodes with a non-null
analysis; an absent analysis projects from an all-null row). -/
def projectionOf (podcasts : List Podcast) (e : Episode) : EpisodeProjection :=
  let a := e.analysis.getD ⟨none, none, none, none, none, none, none, none⟩
  { title := e.title
    podcast_title := ((podcasts.find? (fun p => p.id == e.podcast_id)).map
      (fun p => p.title)).getD "Unknown"
    published_at := e.published_at
    overview := a.overview
    key_points := a.key_points.getD []
    themes := a.themes.getD []
    predictions := a.predictions.getD []
    recommendations := a.recommendations.getD []
    advice := a.advice.getD [] }

/-- `DigestService.generate_digest` (lines 163-260).  The LLM call is
abstracted by the response text it returned; image generation by an oracle;
`random.choice` over the palette by an index reduced mod the palette length.
`.error` models the `AttributeError` raised by `result.get` when the parsed
response is not a JSON object. -/
def generate_digest (episodes_with_analysis : List EpisodeProjection)
    (responseText : String) (generate_image : Bool)
    (imageGen : String → Option String) (artistIdx : Nat) :
    Except String DigestResult :=
  if episodes_with_analysis.isEmpty then
    .ok { summary := .jstr "No episodes to analyze.", common_themes := .jarr [],
          trends := .jarr [], predictions := .jarr [],
          recommendations := .jarr [], key_advice := .jarr [],
          action_items := .jarr [] }
  else
    match parse_json_response responseText with
    | .jobj kvs =>
      let desc := jGet kvs "image_description"
      let imagePair : Option String × Option String :=
        if generate_image && optJTruthy desc then
          let pair := ARTISTS_digest.getD (artistIdx % ARTISTS_digest.length) ("", "")
          let p := "Painting in the style of " ++ pair.1 ++ ". " ++ pair.2 ++
            ". Scene: " ++ pyStr (desc.getD .jnull) ++ ". No text, no words, no letters."
          (some p, imageGen p)
        else (none, none)
      .ok { summary := jGetD kvs "summary" (.jstr "")
            common_themes := jGetD kvs "common_themes" (.jarr [])
            trends := jGetD kvs "trends" (.jarr [])
            predictions := jGetD kvs "predictions" (.jarr [])
            recommendations := jGetD kvs "recommendations" (.jarr [])
            key_advice := jGetD kvs "key_advice" (.jarr [])
            action_items := jGetD kvs "action_items" (.jarr [])
            image_url := imagePair.2
            image_prompt := imagePair.1 }
    | v => .error ("'" ++ pyTypeName v ++ "' object has no attribute 'get'")

/-! ## Digest pipeline (`routers/digests.py`) -/

/-- Row of `digests` (`models.py`).  Synthesis payload columns hold parsed
JSON values; `episode_count` defaults to 0 on creation. -/
structure Digest where
  id : Nat
  title : String
  period_start : Nat
  period_end : Nat
  podcast_ids : Option (List Nat)
  episode_count : Nat
  summary : Option JVal
  common_themes : Option JVal
  trends : Option JVal
  predictions : Option JVal
  recommendations : Option JVal
  key_advice : Option JVal
  action_items : Option JVal
  image_url : Option String
  image_prompt : Option String
  status : String
  processing_step : Option String
  processing_detail : Option String

/-- Row of `digest_episodes`. -/
structure DigestEpisodeRow where
  digest_id : Nat
  episode_id : Nat
deriving Repr, DecidableEq

/-- The episode query of `process_digest` (lines 66-75): completed episodes
published within the inclusive period, optionally filtered to a non-empty
podcast-id list (Python truthiness: `None` or `[]` mean no filter); a NULL
`published_at` never satisfies the SQL range comparison. -/
def qualifyingEpisodes (db : List Episode) (period_start period_end : Nat)
    (podcast_ids : Option (List Nat)) : List Episode :=
  db.filter fun e =>
    e.status == "completed" &&
    (match e.published_at with
     | some d => decide (period_start ≤ d) && decide (d ≤ period_end)
     | none => false) &&
    (match podcast_ids with
     | some (i :: is) => (i :: is).contains e.podcast_id
     | _ => true)

/-- The episodes the collection stage keeps: those with a non-null analysis
(lines 80-99). -/
def collectQualifying (db : List Episode) (period_start period_end : Nat)
    (podcast_ids : Option (List Nat)) : List Episode :=
  (qualifyingEpisodes db period_start period_end podcast_ids).filter
    (fun e => e.analysis.isSome)

structure ProcessDigestOutcome where
  digest : Digest
  links : List DigestEpisodeRow
  synthesisCalled : Bool

/-- `process_digest` (lines 53-167): final committed digest state, the
`DigestEpisode` rows created (committed at line 113, before synthesis), and
whether the synthesis LLM call was made.  Intermediate progress commits
touch only `processing_step`/`processing_detail`, which every terminal
commit overwrites, so only the terminal state is recorded. -/
def process_digest (db : List Episode) (podcasts : List Podcast)
    (digest0 : Digest) (synthesis : Except String String)
    (imageGen : String → Option String) (artistIdx : Nat) :
    ProcessDigestOutcome :=
  let d1 := { digest0 with
    status := "processing",
    processing_step := some "collecting_episodes",
    processing_detail := some "Finding analysed episodes..." }
  let eps := collectQualifying db digest0.period_start digest0.period_end
    digest0.podcast_ids
  let links := eps.map fun e => ⟨digest0.id, e.id⟩
  if eps.isEmpty then
    { digest := { d1 with
        status := "completed",
        processing_step := none,
        processing_detail := none,
        summary := some (.jstr "No analyzed episodes found in this time period."),
        episode_count := 0 },
      links := links, synthesisCalled := false }
  else
    let d2 := { d1 with
      processing_step := some "generating_content",
      processing_detail := some ("Claude is synthesising insights from " ++
        toString eps.length ++ " episodes...") }
    match synthesis with
    | .error msg =>
      { digest := { d2 with
          status := "failed",
          processing_step := none,
          processing_detail := none,
          summary := some (.jstr ("Error: " ++ msg)) },
        links := links, synthesisCalled := true }
    | .ok responseText =>
      match generate_digest (eps.map (projectionOf podcasts)) responseText true
          imageGen artistIdx with
      | .error msg =>
        { digest := { d2 with
            status := "failed",
            processing_step := none,
            processing_detail := none,
            summary := some (.jstr ("Error: " ++ msg)) },
          links := links, synthesisCalled := true }
      | .ok result =>
        { digest := { d2 with
            summary := some result.summary,
            common_themes := some result.common_themes,
            trends := some result.trends,
            predictions := some result.predictions,
            recommendations := some result.recommendations,
            key_advice := some result.key_advice,
            action_items := some result.action_items,
            image_url := result.image_url,
            image_prompt := result.image_prompt,
            episode_count := eps.length,
            status := "completed",
            processing_step := none,
            processing_detail := none },
          links := links, synthesisCalled := true }

/-! ## Image regeneration (`routers/digests.py`, lines 12 and 303-323) -/

/-- The artist palette of the regenerate-image endpoint. -/
def ARTISTS : List String :=
  ["Kandinsky", "Monet", "Picasso", "van Gogh", "Dali", "Klee"]

/-- A character matched by the regex class of word-or-whitespace characters
in the substitution pattern (ASCII model of Python `re`). -/
def isWordOrSpace (c : Char) : Bool := c.isAlphanum || c = '_' || pyIsSpace c

/-- After the marker and at least one word-or-space character: consume
further word-or-space characters up to the first `.`/`,` terminator (the
non-greedy quantifier stops at the first possible close), returning the
remainder after the terminator. -/
def afterStyleRun : List Char → Option (List Char)
  | [] => none
  | c :: r =>
    if c = '.' || c = ',' then some r
    else if isWordOrSpace c then afterStyleRun r
    else none

/-- Try to match the substitution pattern — the literal `style of ` marker,
one or more word-or-space characters, then `.` or `,` — at the head of the
list, returning the remainder after the match. -/
def tryMatchStyle (l : List Char) : Option (List Char) :=
  if ("style of ".data).isPrefixOf l then
    match l.drop 9 with
    | c :: r => if isWordOrSpace c then afterStyleRun r else none
    | [] => none
  else none

/-- `re.sub` of the pattern with a fixed replacement: scan left to right,
replacing every non-overlapping match.  The fuel starts at the input length
and every step consumes at least one character, so it never runs out. -/
def subStyleAux (repl : List Char) : Nat → List Char → List Char
  | _, [] => []
  | 0, l => l
  | fuel + 1, c :: r =>
    match tryMatchStyle (c :: r) with
    | some rest => repl ++ subStyleAux repl fuel rest
    | none => c :: subStyleAux repl fuel r

/-- The substitution of `regenerate_image` (line 313): every pattern match
is replaced by `style of ` + the new artist + `.`. -/
def reSubStyle (new_artist : String) (prompt : String) : String :=
  String.mk (subStyleAux ("style of " ++ new_artist ++ ".").data
    prompt.data.length prompt.data)

/-- Outcome of the regenerate-image endpoint. -/
inductive RegenOutcome where
  | notFound
  | noPromptError
  | generationError
  | ok (image_url : String) (image_prompt : String)

/-- `regenerate_image` endpoint (lines 303-323).  The artist drawn by
`random.choice(ARTISTS)` is the `new_artist` parameter; a missing digest is
HTTP 404, a missing (or empty, hence falsy) `image_prompt` is the HTTP 400
"No image prompt available" error, a failed generation is HTTP 500. -/
def regenerate_image (digest : Option Digest) (new_artist : String)
    (genImage : String → Option String) : RegenOutcome :=
  match digest with
  | none => .notFound
  | some d =>
    match d.image_prompt with
    | none => .noPromptError
    | some p =>
      if p = "" then .noPromptError
      else
        match genImage (reSubStyle new_artist p) with
        | none => .generationError
        | some url => .ok url (reSubStyle new_artist p)

/-! ## Theorems: C2 -/

set_option maxRecDepth 8192

/-- The spec's exemplar prompt, in the exact shape `generate_digest`
composes: marker, artist, style description, scene, no-text suffix. -/
def prompt0 : String :=
  "Painting in the style of Monet. Bold brushwork, misty light over water. Scene: a foggy harbor at dawn. No text, no words, no letters."

/-- A fresh digest row as `create_digest` makes it (`episode_count` 0, every
payload column NULL). -/
def digestBase : Digest :=
  { id := 1, title := "Weekly Digest", period_start := 0, period_end := 100,
    podcast_ids := none, episode_count := 0, summary := none,
    common_themes := none, trends := none, predictions := none,
    recommendations := none, key_advice := none, action_items := none,
    image_url := none, image_prompt := none, status := "pending",
    processing_step := none, processing_detail := none }

/-- A digest carrying the exemplar prompt, whose current artist is Monet. -/
def digestWithPrompt : Digest :=
  { digestBase with
    status := "completed",
    image_url := some "old",
    image_prompt := some prompt0 }

/-- C2 counterexample: `random.choice(ARTISTS)` can return the incumbent
artist — drawing "Monet" against a prompt whose artist is Monet makes the
regenerated prompt byte-identical to the old one, so the new artist is not
"different from the previous artist". -/
theorem c2_counterexample :
    "Monet" ∈ ARTISTS ∧
    digestWithPrompt.image_prompt = some prompt0 ∧
    regenerate_image (some digestWithPrompt) "Monet" (fun _ => some "img") =
      .ok "img" prompt0 := by
  exact ⟨by decide, rfl, rfl⟩

/-- A position where the marker is not a prefix cannot start a match. -/
theorem tryMatchStyle_none_of_not_prefix (l : List Char)
    (h : ("style of ".data).isPrefixOf l = false) : tryMatchStyle l = none := by
  simp [tryMatchStyle, h]

/-- The non-greedy body run: word-or-space characters up to the first
terminator are consumed, and the remainder after the terminator is returned
(word-or-space characters are never terminators, so the first terminator met
is the one that follows the body). -/
theorem afterStyleRun_through (body : List Char) (term : Char) (tail : List Char)
    (hbody : ∀ c ∈ body, isWordOrSpace c = true)
    (hterm : term = '.' ∨ term = ',') :
    afterStyleRun (body ++ term :: tail) = some tail := by
  induction body with
  | nil => rcases hterm with rfl | rfl <;> rfl
  | cons c cs ih =>
    have hc := hbody c (List.mem_cons_self _ _)
    have h1 : (c = '.' || c = ',') = false := by
      by_cases hd : c = '.'
      · subst hd
        exact absurd hc (by decide)
      · by_cases he : c = ','
        · subst he
          exact absurd hc (by decide)
        · simp [hd, he]
    simp [afterStyleRun, h1, hc,
      ih (fun x hx => hbody x (List.mem_cons_of_mem _ hx))]

/-- At the marker itself, the pattern matches exactly marker + body +
terminator, leaving the tail as the remainder. -/
theorem tryMatchStyle_at_marker (old : List Char) (term : Char) (tail : List Char)
    (hold : old ≠ []) (holdc : ∀ c ∈ old, isWordOrSpace c = true)
    (hterm : term = '.' ∨ term = ',') :
    tryMatchStyle ("style of ".data ++ (old ++ term :: tail)) = some tail := by
  have hpfx : ("style of ".data).isPrefixOf
      ("style of ".data ++ (old ++ term :: tail)) = true := by
    rw [List.isPrefixOf_iff_prefix]
    exact List.prefix_append _ _
  have hdrop : ("style of ".data ++ (old ++ term :: tail)).drop 9 =
      old ++ term :: tail := rfl
  unfold tryMatchStyle
  rw [if_pos hpfx, hdrop]
  cases old with
  | nil => exact absurd rfl hold
  | cons c cs =>
    rw [List.cons_append]
    have hc := holdc c (List.mem_cons_self _ _)
    simp only [hc, if_true]
    exact afterStyleRun_through cs term tail
      (fun x hx => holdc x (List.mem_cons_of_mem _ hx)) hterm

/-- One `re.sub` step at a match: emit the replacement and continue after the
matched span. -/
theorem subStyleAux_match_step (repl : List Char) (l rest : List Char) (fuel : Nat)
    (h : tryMatchStyle l = some rest) :
    subStyleAux repl (fuel + 1) l = repl ++ subStyleAux repl fuel rest := by
  cases l with
  | nil =>
    rw [show tryMatchStyle ([] : List Char) = none from rfl] at h
    exact Option.noConfusion h
  | cons c r => simp [subStyleAux, h]

/-- A list with no match anywhere is copied verbatim, for every fuel. -/
theorem subStyleAux_no_match (repl : List Char) (l : List Char) :
    ∀ fuel, (∀ p, tryMatchStyle (l.drop p) = none) →
      subStyleAux repl fuel l = l := by
  induction l with
  | nil =>
    intro fuel _
    cases fuel <;> rfl
  | cons c cs ih =>
    intro fuel h
    cases fuel with
    | zero => rfl
    | succ n =>
      have h0 : tryMatchStyle (c :: cs) = none := by simpa using h 0
      have hrec := ih n (fun p => by simpa using h (p + 1))
      simp [subStyleAux, h0, hrec]

/-- Scanning across a prefix in which no match starts copies it verbatim and
continues on the suffix with the remaining fuel. -/
theorem subStyleAux_append_no_match (repl : List Char) (l₁ : List Char) :
    ∀ (fuel : Nat) (l₂ : List Char),
      (∀ p < l₁.length, tryMatchStyle ((l₁ ++ l₂).drop p) = none) →
      subStyleAux repl (l₁.length + fuel) (l₁ ++ l₂) =
        l₁ ++ subStyleAux repl fuel l₂ := by
  induction l₁ with
  | nil =>
    intro fuel l₂ _
    simp
  | cons c cs ih =>
    intro fuel l₂ h
    have h0 : tryMatchStyle (c :: (cs ++ l₂)) = none := by
      simpa using h 0 (by simp)
    have h' : ∀ p < cs.length, tryMatchStyle ((cs ++ l₂).drop p) = none := by
      intro p hp
      have := h (p + 1) (by simp; omega)
      simpa using this
    have hlen : (c :: cs).length + fuel = (cs.length + fuel) + 1 := by
      simp [List.length_cons]
      omega
    rw [hlen, List.cons_append]
    have step : subStyleAux repl ((cs.length + fuel) + 1) (c :: (cs ++ l₂)) =
        c :: subStyleAux repl (cs.length + fuel) (cs ++ l₂) := by
      simp [subStyleAux, h0]
    rw [step, ih fuel l₂ h', List.cons_append]

/-- C2 (corrected): for every prompt containing the marker — any decomposition
prefix + `style of ` + artist-body + terminator (`.` or `,`) + rest, with the
body nonempty word-or-space text and the marker occurring nowhere else — and
for every artist the draw can return (any palette member, the incumbent
included), the substitution replaces exactly the matched span with
`style of ` + new artist + `.`, leaving prefix and rest byte-identical; and
with no prior `image_prompt` the endpoint fails with the HTTP 400 error
without generating (the outcome is `noPromptError` for every image oracle).
The claim's "different from the previous artist" is not guaranteed. -/
theorem c2_regeneration (a pre old rest : String) (term : Char)
    (ha : a ∈ ARTISTS)
    (hold : old.data ≠ [])
    (holdc : ∀ c ∈ old.data, isWordOrSpace c = true)
    (hterm : term = '.' ∨ term = ',')
    (hpre : ∀ p < pre.data.length,
      ("style of ".data).isPrefixOf
        ((pre.data ++ ("style of ".data ++ (old.data ++ term :: rest.data))).drop p)
        = false)
    (hrest : ∀ p < rest.data.length,
      ("style of ".data).isPrefixOf (rest.data.drop p) = false)
    (d : Digest) (g : String → Option String) (hp : d.image_prompt = none) :
    reSubStyle a (pre ++ "style of " ++ old ++ String.mk [term] ++ rest) =
      pre ++ "style of " ++ a ++ "." ++ rest ∧
    regenerate_image (some d) a g = .noPromptError := by
  constructor
  · have hmk : (String.mk [term]).data = [term] := rfl
    have hdata : (pre ++ "style of " ++ old ++ String.mk [term] ++ rest).data =
        pre.data ++ ("style of ".data ++ (old.data ++ term :: rest.data)) := by
      simp [String.data_append, hmk, List.append_assoc]
    have hrest' : ∀ p, tryMatchStyle (rest.data.drop p) = none := by
      intro p
      by_cases hplt : p < rest.data.length
      · exact tryMatchStyle_none_of_not_prefix _ (hrest p hplt)
      · rw [List.drop_eq_nil_of_le (Nat.le_of_not_lt hplt)]
        rfl
    have hm : tryMatchStyle ("style of ".data ++ (old.data ++ term :: rest.data)) =
        some rest.data := tryMatchStyle_at_marker _ _ _ hold holdc hterm
    unfold reSubStyle
    rw [hdata, List.length_append]
    rw [subStyleAux_append_no_match _ pre.data _ _
      (fun p hp' => tryMatchStyle_none_of_not_prefix _ (hpre p hp'))]
    rw [show ("style of ".data ++ (old.data ++ term :: rest.data)).length =
        ((old.data ++ term :: rest.data).length + 8) + 1 from by
      rw [List.length_append, show ("style of ".data).length = 9 from rfl]
      omega]
    rw [subStyleAux_match_step _ _ _ _ hm]
    rw [subStyleAux_no_match _ _ _ hrest']
    rw [show (pre ++ "style of " ++ a ++ "." ++ rest) =
        String.mk ((pre ++ "style of " ++ a ++ "." ++ rest).data) from rfl]
    apply congrArg String.mk
    simp [String.data_append, List.append_assoc]
  · simp [regenerate_image, hp]

/-- The spec exemplar decomposed at its marker occurrence. -/
def promptPre : String := "Painting in the "

def promptRest : String :=
  " Bold brushwork, misty light over water. Scene: a foggy harbor at dawn. No text, no words, no letters."

theorem c2_regeneration_witness :
    "Klee" ∈ ARTISTS ∧ digestBase.image_prompt = none ∧
    (reSubStyle "Klee"
        (promptPre ++ "style of " ++ "Monet" ++ String.mk ['.'] ++ promptRest) =
      promptPre ++ "style of " ++ "Klee" ++ "." ++ promptRest ∧
     regenerate_image (some digestBase) "Klee" (fun _ => some "img") =
       .noPromptError) :=
  ⟨by decide, rfl,
    c2_regeneration "Klee" promptPre "Monet" promptRest '.' (by decide)
      (by decide) (by decide) (Or.inl rfl) (by decide) (by decide) digestBase
      (fun _ => some "img") rfl⟩

/-! ## Theorems: C3 -/

/-- A model response from which no JSON can be extracted. -/
def badResponse : String := "The model could not produce JSON for this request."

/-- Python `s[:n]`. -/
def pySlice (s : String) (n : Nat) : String := String.mk (s.data.take n)

/-- The `DigestResult` the digest service actually returns on total parse
failure: empty-string summary, empty lists, no image. -/
def degradedDigestResult : DigestResult :=
  { summary := .jstr "", common_themes := .jarr [], trends := .jarr [],
    predictions := .jarr [], recommendations := .jarr [],
    key_advice := .jarr [], action_items := .jarr [],
    image_url := none, image_prompt := none }

/-- A projection standing in for one analysed episode. -/
def projExample : EpisodeProjection :=
  { title := "Ep 1", podcast_title := "Pod", published_at := some 10,
    overview := some "o", key_points := [], themes := [], predictions := [],
    recommendations := [], advice := [] }

theorem isEmpty_false_of_ne_nil {α : Type} {l : List α} (h : l ≠ []) :
    l.isEmpty = false := by
  cases l with
  | nil => exact absurd rfl h
  | cons a t => rfl

/-- C3 counterexample: on a response with no extractable JSON the digest
service returns summary `""`, not the truncated raw response text (which is
non-empty) — the truncated-raw-text fallback belongs to the per-episode
summariser, not to digest synthesis. -/
theorem c3_counterexample :
    generate_digest [projExample] badResponse true (fun _ => none) 0 =
      .ok degradedDigestResult ∧
    degradedDigestResult.summary = .jstr "" ∧
    JVal.jstr "" ≠ JVal.jstr (pySlice badResponse 500) := by
  refine ⟨rfl, rfl, ?_⟩
  simp only [ne_eq, JVal.jstr.injEq]
  decide

/-- C3 (corrected): when the direct parse, the fenced-block extraction and
the brace-span extraction all fail to produce JSON, digest synthesis does
not raise: `_parse_json_response` returns the empty dict and
`generate_digest` returns a degraded result with every list field empty —
but its summary is the empty string, not the truncated raw response text. -/
theorem c3_degraded (r : String) (eps : List EpisodeProjection)
    (g : String → Option String) (idx : Nat)
    (h1 : jsonLoads r = none)
    (h2 : (extractFenced r).bind jsonLoads = none)
    (h3 : (extractBraces r).bind jsonLoads = none)
    (hne : eps ≠ []) :
    parse_json_response r = .jobj [] ∧
    generate_digest eps r true g idx = .ok degradedDigestResult := by
  have hp : parse_json_response r = .jobj [] := by
    unfold parse_json_response
    rw [h1, h2, h3]
  refine ⟨hp, ?_⟩
  unfold generate_digest
  rw [if_neg (by rw [isEmpty_false_of_ne_nil hne]; exact Bool.false_ne_true), hp]
  rfl

theorem c3_degraded_witness :
    jsonLoads badResponse = none ∧
    (extractFenced badResponse).bind jsonLoads = none ∧
    (extractBraces badResponse).bind jsonLoads = none ∧
    (parse_json_response badResponse = .jobj [] ∧
      generate_digest [projExample] badResponse true (fun _ => none) 0 =
        .ok degradedDigestResult) :=
  ⟨rfl, rfl, rfl,
    c3_degraded badResponse [projExample] (fun _ => none) 0 rfl rfl rfl
      (by simp)⟩

/-! ## Theorems: C6, C8, C10 -/

/-- C6 (confirmed): with zero qualifying analysed episodes the digest
short-circuits: `completed`, `episode_count = 0`, the fixed no-episodes
message, step and detail cleared, and the synthesis LLM is never called. -/
theorem c6_zero_episodes (db : List Episode) (podcasts : List Podcast)
    (dg : Digest) (synthesis : Except String String)
    (g : String → Option String) (idx : Nat)
    (h : collectQualifying db dg.period_start dg.period_end dg.podcast_ids = []) :
    (process_digest db podcasts dg synthesis g idx).digest.status = "completed" ∧
    (process_digest db podcasts dg synthesis g idx).digest.episode_count = 0 ∧
    (process_digest db podcasts dg synthesis g idx).digest.summary =
      some (.jstr "No analyzed episodes found in this time period.") ∧
    (process_digest db podcasts dg synthesis g idx).digest.processing_step = none ∧
    (process_digest db podcasts dg synthesis g idx).digest.processing_detail = none ∧
    (process_digest db podcasts dg synthesis g idx).synthesisCalled = false := by
  simp [process_digest, h]

theorem c6_zero_episodes_witness :
    collectQualifying [] digestBase.period_start digestBase.period_end
      digestBase.podcast_ids = [] ∧
    ((process_digest [] [] digestBase (.ok "x") (fun _ => none) 0).digest.status =
        "completed" ∧
      (process_digest [] [] digestBase (.ok "x") (fun _ => none) 0).digest.episode_count = 0 ∧
      (process_digest [] [] digestBase (.ok "x") (fun _ => none) 0).digest.summary =
        some (.jstr "No analyzed episodes found in this time period.") ∧
      (process_digest [] [] digestBase (.ok "x") (fun _ => none) 0).digest.processing_step = none ∧
      (process_digest [] [] digestBase (.ok "x") (fun _ => none) 0).digest.processing_detail = none ∧
      (process_digest [] [] digestBase (.ok "x") (fun _ => none) 0).synthesisCalled = false) :=
  ⟨rfl, c6_zero_episodes [] [] digestBase (.ok "x") (fun _ => none) 0 rfl⟩

/-- When the parsed response is an object and the image oracle always fails,
`generate_digest` succeeds with the text getters and a null image url. -/
theorem generate_digest_image_none (eps : List EpisodeProjection) (resp : String)
    (g : String → Option String) (idx : Nat) (kvs : List (String × JVal))
    (hne : eps.isEmpty = false) (hparse : parse_json_response resp = .jobj kvs)
    (hg : ∀ p, g p = none) :
    ∃ ip, generate_digest eps resp true g idx = .ok
      { summary := jGetD kvs "summary" (.jstr "")
        common_themes := jGetD kvs "common_themes" (.jarr [])
        trends := jGetD kvs "trends" (.jarr [])
        predictions := jGetD kvs "predictions" (.jarr [])
        recommendations := jGetD kvs "recommendations" (.jarr [])
        key_advice := jGetD kvs "key_advice" (.jarr [])
        action_items := jGetD kvs "action_items" (.jarr [])
        image_url := none
        image_prompt := ip } := by
  unfold generate_digest
  rw [if_neg (by rw [hne]; exact Bool.false_ne_true), hparse]
  by_cases hc : optJTruthy (jGet kvs "image_description") = true
  · simp only [Bool.true_and, hc, if_true, hg]
    exact ⟨_, rfl⟩
  · rw [Bool.not_eq_true] at hc
    simp only [Bool.true_and, hc, Bool.false_eq_true, if_false]
    exact ⟨_, rfl⟩

/-- C8 (confirmed): when image generation returns no image, the digest still
completes — `image_url` is null while every text field of the synthesis is
persisted, the episode count is set, and step/detail are cleared. -/
theorem c8_image_failure (db : List Episode) (podcasts : List Podcast)
    (dg : Digest) (resp : String) (g : String → Option String) (idx : Nat)
    (kvs : List (String × JVal))
    (hg : ∀ p, g p = none)
    (hne : collectQualifying db dg.period_start dg.period_end dg.podcast_ids ≠ [])
    (hparse : parse_json_response resp = .jobj kvs) :
    (process_digest db podcasts dg (.ok resp) g idx).digest.status = "completed" ∧
    (process_digest db podcasts dg (.ok resp) g idx).digest.image_url = none ∧
    (process_digest db podcasts dg (.ok resp) g idx).digest.summary =
      some (jGetD kvs "summary" (.jstr "")) ∧
    (process_digest db podcasts dg (.ok resp) g idx).digest.common_themes =
      some (jGetD kvs "common_themes" (.jarr [])) ∧
    (process_digest db podcasts dg (.ok resp) g idx).digest.trends =
      some (jGetD kvs "trends" (.jarr [])) ∧
    (process_digest db podcasts dg (.ok resp) g idx).digest.predictions =
      some (jGetD kvs "predictions" (.jarr [])) ∧
    (process_digest db podcasts dg (.ok resp) g idx).digest.recommendations =
      some (jGetD kvs "recommendations" (.jarr [])) ∧
    (process_digest db podcasts dg (.ok resp) g idx).digest.key_advice =
      some (jGetD kvs "key_advice" (.jarr [])) ∧
    (process_digest db podcasts dg (.ok resp) g idx).digest.action_items =
      some (jGetD kvs "action_items" (.jarr [])) ∧
    (process_digest db podcasts dg (.ok resp) g idx).digest.episode_count =
      (collectQualifying db dg.period_start dg.period_end dg.podcast_ids).length ∧
    (process_digest db podcasts dg (.ok resp) g idx).digest.processing_step = none ∧
    (process_digest db podcasts dg (.ok resp) g idx).digest.processing_detail = none := by
  have hmapne : ((collectQualifying db dg.period_start dg.period_end
      dg.podcast_ids).map (projectionOf podcasts)).isEmpty = false := by
    cases hq : collectQualifying db dg.period_start dg.period_end dg.podcast_ids with
    | nil => exact absurd hq hne
    | cons a t => rfl
  obtain ⟨ip, hgen⟩ := generate_digest_image_none
    ((collectQualifying db dg.period_start dg.period_end dg.podcast_ids).map
      (projectionOf podcasts)) resp g idx kvs hmapne hparse hg
  simp only [process_digest, isEmpty_false_of_ne_nil hne, Bool.false_eq_true,
    if_false, hgen]
  simp

/-- A stored analysis row for the witnesses. -/
def analysisRow1 : EpisodeAnalysisRow :=
  { overview := some "Overview", key_points := some ["k"], topics := some ["t"],
    themes := some ["th"], predictions := some [], recommendations := some [],
    advice := some [], notable_quotes := some [] }

/-- A completed, analysed episode inside `digestBase`'s period. -/
def completedEpisode : Episode :=
  { id := 7, podcast_id := 2, title := "Done", published_at := some 50,
    status := "completed", processing_step := none, transcript := some "txt",
    summary := some "s", analysis := some analysisRow1 }

theorem c8_image_failure_witness :
    collectQualifying [completedEpisode] digestBase.period_start
      digestBase.period_end digestBase.podcast_ids ≠ [] ∧
    parse_json_response "\x7b\x7d" = .jobj [] ∧
    ((process_digest [completedEpisode] [] digestBase (.ok "\x7b\x7d")
        (fun _ => none) 0).digest.status = "completed" ∧
      (process_digest [completedEpisode] [] digestBase (.ok "\x7b\x7d")
        (fun _ => none) 0).digest.image_url = none ∧
      (process_digest [completedEpisode] [] digestBase (.ok "\x7b\x7d")
        (fun _ => none) 0).digest.summary = some (jGetD [] "summary" (.jstr ""))) := by
  have h := c8_image_failure [completedEpisode] [] digestBase "\x7b\x7d"
    (fun _ => none) 0 [] (fun _ => rfl) (by decide) rfl
  exact ⟨by decide, rfl, h.1, h.2.1, h.2.2.1⟩

/-- C10 (confirmed): when synthesis raises after the collection commit, the
failure handler touches only status, step, detail and summary — the
committed `DigestEpisode` links survive (they are not rolled back) and
`episode_count` stays at its initial 0, so a failed digest carries links
while reporting a zero count; every other digest column keeps its prior
value. -/
theorem c10_failure_frame (db : List Episode) (podcasts : List Podcast)
    (dg : Digest) (msg : String) (g : String → Option String) (idx : Nat)
    (hne : collectQualifying db dg.period_start dg.period_end dg.podcast_ids ≠ [])
    (hcount : dg.episode_count = 0) :
    (process_digest db podcasts dg (.error msg) g idx).digest.status = "failed" ∧
    (process_digest db podcasts dg (.error msg) g idx).digest.processing_step = none ∧
    (process_digest db podcasts dg (.error msg) g idx).digest.processing_detail = none ∧
    (process_digest db podcasts dg (.error msg) g idx).digest.summary =
      some (.jstr ("Error: " ++ msg)) ∧
    (process_digest db podcasts dg (.error msg) g idx).links =
      (collectQualifying db dg.period_start dg.period_end dg.podcast_ids).map
        (fun e => ⟨dg.id, e.id⟩) ∧
    (process_digest db podcasts dg (.error msg) g idx).links ≠ [] ∧
    (process_digest db podcasts dg (.error msg) g idx).digest.episode_count = 0 ∧
    (process_digest db podcasts dg (.error msg) g idx).digest.title = dg.title ∧
    (process_digest db podcasts dg (.error msg) g idx).digest.period_start =
      dg.period_start ∧
    (process_digest db podcasts dg (.error msg) g idx).digest.period_end =
      dg.period_end ∧
    (process_digest db podcasts dg (.error msg) g idx).digest.podcast_ids =
      dg.podcast_ids ∧
    (process_digest db podcasts dg (.error msg) g idx).digest.common_themes =
      dg.common_themes ∧
    (process_digest db podcasts dg (.error msg) g idx).digest.trends = dg.trends ∧
    (process_digest db podcasts dg (.error msg) g idx).digest.predictions =
      dg.predictions ∧
    (process_digest db podcasts dg (.error msg) g idx).digest.recommendations =
      dg.recommendations ∧
    (process_digest db podcasts dg (.error msg) g idx).digest.key_advice =
      dg.key_advice ∧
    (process_digest db podcasts dg (.error msg) g idx).digest.action_items =
      dg.action_items ∧
    (process_digest db podcasts dg (.error msg) g idx).digest.image_url =
      dg.image_url ∧
    (process_digest db podcasts dg (.error msg) g idx).digest.image_prompt =
      dg.image_prompt := by
  have hlinks : (collectQualifying db dg.period_start dg.period_end
      dg.podcast_ids).map (fun e => (⟨dg.id, e.id⟩ : DigestEpisodeRow)) ≠ [] := by
    cases hq : collectQualifying db dg.period_start dg.period_end dg.podcast_ids with
    | nil => exact absurd hq hne
    | cons a t => simp [hq]
  simp only [process_digest, isEmpty_false_of_ne_nil hne, Bool.false_eq_true,
    if_false]
  simp [hcount, hlinks]

theorem c10_failure_frame_witness :
    collectQualifying [completedEpisode] digestBase.period_start
      digestBase.period_end digestBase.podcast_ids ≠ [] ∧
    digestBase.episode_count = 0 ∧
    ((process_digest [completedEpisode] [] digestBase (.error "boom")
        (fun _ => none) 0).digest.status = "failed" ∧
      (process_digest [completedEpisode] [] digestBase (.error "boom")
        (fun _ => none) 0).digest.summary = some (.jstr ("Error: " ++ "boom")) ∧
      (process_digest [completedEpisode] [] digestBase (.error "boom")
        (fun _ => none) 0).links ≠ [] ∧
      (process_digest [completedEpisode] [] digestBase (.error "boom")
        (fun _ => none) 0).digest.episode_count = 0) := by
  have h := c10_failure_frame [completedEpisode] [] digestBase "boom"
    (fun _ => none) 0 (by decide) rfl
  exact ⟨by decide, rfl, h.1, h.2.2.2.1, h.2.2.2.2.2.1, h.2.2.2.2.2.2.1⟩
